import Mathlib

/-!
Verification development for the jurisdiction-resolution subsystem of the
courtlistener-mcp server: the court directory (acquisition, categorization,
caching), the jurisdiction resolver and the suggestion engine.

The TypeScript source is embedded shallowly: strings are modelled through
their character lists (`String.data`), JavaScript `toLowerCase` through the
ASCII `Char.toLower` (every token and court id in play is ASCII), `\s`
through `Char.isWhitespace`, and fallible operations return `Except`.
-/

/-- ASCII model of JavaScript `s.toLowerCase()`. -/
def lowerStr (s : String) : String :=
  String.mk (s.data.map Char.toLower)

/-- The character class `[-_\s]` stripped by the resolver's normalization. -/
def isStripped (c : Char) : Bool :=
  c == '-' || c == '_' || c.isWhitespace

/-- `jurisdiction.toLowerCase().replace(/[-_\s]/g, "")` from `resolveJurisdiction`. -/
def normToken (s : String) : String :=
  String.mk ((s.data.map Char.toLower).filter (fun c => !isStripped c))

/-- `stateName.replace(/[-_\s]/g, "")` from `findCourtsByState` (no lowering). -/
def stripKeyChars (s : String) : String :=
  String.mk (s.data.filter (fun c => !isStripped c))

/-- Character-list test that `pat` is an initial segment, modelling
JavaScript `hay.startsWith(pat)`. -/
def startsWithChars : List Char → List Char → Bool
  | _, [] => true
  | [], _ :: _ => false
  | c :: cs, p :: ps => c == p && startsWithChars cs ps

/-- `s.startsWith(pat)` on strings. -/
def strStartsWith (s pat : String) : Bool :=
  startsWithChars s.data pat.data

/-- Character-list test for a contiguous occurrence of `pat`, modelling
JavaScript `hay.includes(pat)`. -/
def containsChars : List Char → List Char → Bool
  | [], pat => startsWithChars [] pat
  | c :: cs, pat => startsWithChars (c :: cs) pat || containsChars cs pat

/-- `s.includes(pat)` on strings. -/
def strIncludes (s pat : String) : Bool :=
  containsChars s.data pat.data

/-- `split(",")` on character lists: comma-separated fields, empty fields kept,
exactly as JavaScript `String.prototype.split`. -/
def splitCommaChars : List Char → List (List Char)
  | [] => [[]]
  | c :: cs =>
    if c == ',' then [] :: splitCommaChars cs
    else
      match splitCommaChars cs with
      | [] => [[c]]
      | p :: ps => (c :: p) :: ps

/-- `jurisdiction.split(",")` on strings. -/
def splitComma (s : String) : List String :=
  (splitCommaChars s.data).map String.mk

/-- Drop leading whitespace characters. -/
def dropLeadingWs : List Char → List Char
  | [] => []
  | c :: cs => if c.isWhitespace then dropLeadingWs cs else c :: cs

/-- JavaScript `s.trim()`: strip whitespace at both ends. -/
def trimStr (s : String) : String :=
  String.mk ((dropLeadingWs (dropLeadingWs s.data).reverse).reverse)

/-- One court record as cached by the server (`CourtInfo` in the source). -/
structure CourtInfo where
  id : String
  short_name : String
  full_name : String
  jurisdiction : String
  start_date : Option String
  end_date : Option String
deriving DecidableEq, Repr

/-- A raw court object from the paginated listing endpoint; any field may be
absent (`none`) or present-but-empty (`some ""`), both falsy in JavaScript. -/
structure RawCourt where
  id : Option String
  short_name : Option String
  full_name : Option String
  jurisdiction : Option String
  start_date : Option String
  end_date : Option String
deriving DecidableEq, Repr

/-- JavaScript truthiness of an optional string field: present and non-empty. -/
def truthy : Option String → Bool
  | none => false
  | some s => !s.data.isEmpty

/-- JavaScript `x || y` for an optional string `x` and fallback `y`. -/
def orFallback (x : Option String) (y : String) : String :=
  match x with
  | none => y
  | some s => if s.data.isEmpty then y else s

/-- The categorized court directory (`CourtCache` in the source): the full
insertion-ordered sequence plus the five category subsequences. -/
structure CourtCache where
  federal : List CourtInfo
  state : List CourtInfo
  federalBankruptcy : List CourtInfo
  military : List CourtInfo
  special : List CourtInfo
  all : List CourtInfo
deriving DecidableEq, Repr

/-- The empty directory the categorizer starts from. -/
def emptyCourtCache : CourtCache :=
  { federal := [], state := [], federalBankruptcy := [], military := []
    special := [], all := [] }

/-- The normalized record built inside `categorizeCourtsByJurisdiction`:
`short_name || id` and `full_name || short_name || id` fallbacks. -/
def buildCourtInfo (court : RawCourt) : CourtInfo :=
  let idv := court.id.getD ""
  { id := idv
    short_name := orFallback court.short_name idv
    full_name := orFallback court.full_name (orFallback court.short_name idv)
    jurisdiction := court.jurisdiction.getD ""
    start_date := court.start_date
    end_date := court.end_date }

/-- One iteration of the `courts.forEach` body of
`categorizeCourtsByJurisdiction`: skip records lacking an id or a
jurisdiction, push the rest onto `all` and onto the one category subsequence
selected by the jurisdiction-code switch, unknown codes going to `special`. -/
def catStep (acc : CourtCache) (court : RawCourt) : CourtCache :=
  if truthy court.id && truthy court.jurisdiction then
    let info := buildCourtInfo court
    let acc1 := { acc with all := acc.all ++ [info] }
    match court.jurisdiction.getD "" with
    | "F" => { acc1 with federal := acc1.federal ++ [info] }
    | "ST" => { acc1 with state := acc1.state ++ [info] }
    | "FB" => { acc1 with federalBankruptcy := acc1.federalBankruptcy ++ [info] }
    | "MA" => { acc1 with military := acc1.military ++ [info] }
    | "FS" => { acc1 with special := acc1.special ++ [info] }
    | _ => { acc1 with special := acc1.special ++ [info] }
  else acc

/-- `categorizeCourtsByJurisdiction` from the source: a single pass over the
raw records building the directory. -/
def categorizeCourtsByJurisdiction (courts : List RawCourt) : CourtCache :=
  courts.foldl catStep emptyCourtCache

/-- Association-list lookup modelling JavaScript own-property access on the
literal objects below (first matching key wins; keys are distinct). -/
def lookupAssoc : List (String × List String) → String → Option (List String)
  | [], _ => none
  | p :: rest, k => if p.1 = k then some p.2 else lookupAssoc rest k

/-- The `stateAbbreviations` table of `findCourtsByState` in `index.ts`,
in source order. -/
def stateAbbreviations : List (String × List String) :=
  [("california", ["ca", "cal"]),
   ("newyork", ["ny"]), ("new-york", ["ny"]),
   ("texas", ["tx", "tex"]),
   ("florida", ["fl", "fla"]),
   ("illinois", ["il", "ill"]),
   ("ohio", ["oh"]),
   ("pennsylvania", ["pa"]),
   ("michigan", ["mi"]),
   ("georgia", ["ga"]),
   ("northcarolina", ["nc"]), ("north-carolina", ["nc"]),
   ("newjersey", ["nj"]), ("new-jersey", ["nj"]),
   ("virginia", ["va"]),
   ("washington", ["wa"]),
   ("arizona", ["az"]),
   ("massachusetts", ["ma"]),
   ("tennessee", ["tn", "tenn"]),
   ("indiana", ["in"]),
   ("missouri", ["mo"]),
   ("maryland", ["md"]),
   ("wisconsin", ["wi"]),
   ("colorado", ["co"]),
   ("minnesota", ["mn"]),
   ("southcarolina", ["sc"]), ("south-carolina", ["sc"]),
   ("alabama", ["al"]),
   ("louisiana", ["la"]),
   ("kentucky", ["ky"]),
   ("oregon", ["or"]),
   ("oklahoma", ["ok"]),
   ("connecticut", ["ct", "conn"]),
   ("utah", ["ut"]),
   ("iowa", ["ia"]),
   ("nevada", ["nv"]),
   ("arkansas", ["ar"]),
   ("mississippi", ["ms"]),
   ("kansas", ["ks"]),
   ("newmexico", ["nm"]), ("new-mexico", ["nm"]),
   ("nebraska", ["ne"]),
   ("westvirginia", ["wv"]), ("west-virginia", ["wv"]),
   ("idaho", ["id"]),
   ("hawaii", ["hi"]),
   ("newhampshire", ["nh"]), ("new-hampshire", ["nh"]),
   ("maine", ["me"]),
   ("montana", ["mt"]),
   ("rhodeisland", ["ri"]), ("rhode-island", ["ri"]),
   ("delaware", ["de"]),
   ("southdakota", ["sd"]), ("south-dakota", ["sd"]),
   ("northdakota", ["nd"]), ("north-dakota", ["nd"]),
   ("alaska", ["ak"]),
   ("vermont", ["vt"]),
   ("wyoming", ["wy"])]

/-- The abbreviation codes chosen by `findCourtsByState`:
`stateAbbreviations[stateName] || stateAbbreviations[stateName.replace(/[-_\s]/g, "")] || [stateName]`. -/
def stateCodesFor (stateName : String) : List String :=
  match lookupAssoc stateAbbreviations stateName with
  | some codes => codes
  | none =>
    match lookupAssoc stateAbbreviations (stripKeyChars stateName) with
    | some codes => codes
    | none => [stateName]

/-- `findCourtsByState` from `index.ts`: filters the STATE category
subsequence of the cached directory by id prefix and returns the ids. -/
def findCourtsByState (cache : CourtCache) (stateName : String) : List String :=
  (cache.state.filter (fun court =>
    (stateCodesFor stateName).any (fun code => strStartsWith (lowerStr court.id) code))).map
    (fun c => c.id)

/-- `findCourtsByState` from the resource generator (`generate-court-resources`):
the same prefix test, but filtered over ALL records, returning the records. -/
def findCourtsByStateAllRecords (cache : CourtCache) (stateName : String) : List CourtInfo :=
  cache.all.filter (fun court =>
    (stateCodesFor stateName).any (fun code => strStartsWith (lowerStr court.id) code))

/-- `resolveJurisdiction` from `index.ts`, as a pure function of the cached
directory it resolves against (the source first awaits `ensureCourtCache` and
throws if no cache is available; here the directory is a parameter).
A thrown `Unrecognized jurisdiction` error is the `Except.error` branch. -/
def resolveJurisdiction (cache : CourtCache) (jurisdiction : String) :
    Except String (List String) :=
  let normalized := normToken jurisdiction
  let lowerOriginal := lowerStr jurisdiction
  if normalized = "all" then Except.ok []
  else if normalized = "federal" then Except.ok (cache.federal.map (fun c => c.id))
  else if normalized = "state" then Except.ok (cache.state.map (fun c => c.id))
  else if normalized = "federalbankruptcy" ∨ normalized = "bankruptcy" then
    Except.ok (cache.federalBankruptcy.map (fun c => c.id))
  else if normalized = "military" then Except.ok (cache.military.map (fun c => c.id))
  else if normalized = "special" then Except.ok (cache.special.map (fun c => c.id))
  else if ',' ∈ jurisdiction.data then
    Except.ok (((splitComma jurisdiction).map trimStr).filter
      (fun i => cache.all.any (fun c => c.id == i)))
  else if cache.all.any (fun c => c.id == jurisdiction) then
    Except.ok [jurisdiction]
  else
    let firstTry := findCourtsByState cache lowerOriginal
    let stateResults := if firstTry.isEmpty then findCourtsByState cache normalized else firstTry
    if !stateResults.isEmpty then Except.ok stateResults
    else
      let nameMatches := cache.all.filter (fun court =>
        strIncludes (lowerStr court.short_name) normalized ||
        strIncludes (lowerStr court.full_name) normalized)
      if !nameMatches.isEmpty then Except.ok ((nameMatches.take 50).map (fun c => c.id))
      else Except.error ("Unrecognized jurisdiction: " ++ jurisdiction)

/-- Helper for first-occurrence deduplication (`[...new Set(xs)]`). -/
def insertUniqueAux (seen : List String) : List String → List String
  | [] => []
  | x :: xs =>
    if seen.contains x then insertUniqueAux seen xs
    else x :: insertUniqueAux (x :: seen) xs

/-- `[...new Set(xs)]`: deduplicate keeping the first occurrence of each
element, preserving order. -/
def dedupFirst (xs : List String) : List String :=
  insertUniqueAux [] xs

/-- `suggestSimilarJurisdictions` from `index.ts`: name matches among the
first 100 records, then the fixed keyword heuristics, deduplicated and
capped at 5. -/
def suggestSimilarJurisdictions (cache : CourtCache) (input : String) : List String :=
  let normalized := lowerStr input
  let fromNames := ((cache.all.take 100).filter (fun court =>
    strIncludes (lowerStr court.short_name) normalized ||
    strIncludes (lowerStr court.full_name) normalized)).map (fun c => c.id)
  let withKeywords := fromNames
    ++ (if strIncludes normalized "fed" then ["federal"] else [])
    ++ (if strIncludes normalized "state" then ["state"] else [])
    ++ (if strIncludes normalized "supreme" then ["scotus"] else [])
    ++ (if strIncludes normalized "ca" && !strIncludes normalized "cal" then ["california"] else [])
    ++ (if strIncludes normalized "ny" then ["new-york"] else [])
    ++ (if strIncludes normalized "south" && strIncludes normalized "carolina" then ["south-carolina"] else [])
    ++ (if strIncludes normalized "north" && strIncludes normalized "carolina" then ["north-carolina"] else [])
    ++ (if strIncludes normalized "south" && strIncludes normalized "dakota" then ["south-dakota"] else [])
    ++ (if strIncludes normalized "north" && strIncludes normalized "dakota" then ["north-dakota"] else [])
    ++ (if strIncludes normalized "new" && strIncludes normalized "jersey" then ["new-jersey"] else [])
    ++ (if strIncludes normalized "new" && strIncludes normalized "mexico" then ["new-mexico"] else [])
    ++ (if strIncludes normalized "west" && strIncludes normalized "virginia" then ["west-virginia"] else [])
    ++ (if strIncludes normalized "new" && strIncludes normalized "hampshire" then ["new-hampshire"] else [])
    ++ (if strIncludes normalized "rhode" && strIncludes normalized "island" then ["rhode-island"] else [])
  (dedupFirst withKeywords).take 5

/-- `CACHE_DURATION = 15 * 24 * 60 * 60 * 1000` (15 days in milliseconds). -/
def CACHE_DURATION : Nat := 15 * 24 * 60 * 60 * 1000

/-- The mutable pair held by the directory cache: `this.courtCache` and
`this.cacheExpiry` (times as natural-number milliseconds). -/
structure CacheState where
  courtCache : Option CourtCache
  cacheExpiry : Option Nat
deriving DecidableEq, Repr

/-- `ensureCourtCache` from `index.ts` as a state transition.  `fetched` is
whatever `discoverCourts()` returned — on any acquisition failure that is `[]`
because `discoverCourts` catches every error and returns an empty array. -/
def ensureCourtCache (st : CacheState) (now : Nat) (fetched : List RawCourt) : CacheState :=
  if st.courtCache.isNone || st.cacheExpiry.isNone || decide (st.cacheExpiry.getD 0 < now) then
    { courtCache := some (categorizeCourtsByJurisdiction fetched)
      cacheExpiry := some (now + CACHE_DURATION) }
  else st

/-- The `while (hasMore && allCourts.length < 4000)` accumulation loop of
`discoverCourts`.  `pages n` is the page the external endpoint serves for
page number `n` (its `results` array and the truthiness of its `next` link).
The `fuel` argument is the standard device for embedding an unbounded while
loop: `none` means the loop was still running after `fuel` iterations. -/
def discoverGo (pages : Nat → List RawCourt × Bool) :
    Nat → Nat → List RawCourt → Bool → Option (List RawCourt)
  | 0, _, _, _ => none
  | fuel + 1, page, allCourts, hasMore =>
    if hasMore = true ∧ allCourts.length < 4000 then
      discoverGo pages fuel (page + 1) (allCourts ++ (pages page).1) (pages page).2
    else
      some allCourts

/-- `discoverCourts` from `index.ts`: start at page 1 with an empty
accumulator and `hasMore = true`. -/
def discoverCourts (pages : Nat → List RawCourt × Bool) (fuel : Nat) :
    Option (List RawCourt) :=
  discoverGo pages fuel 1 [] true

/-- JavaScript object assignment `m[k] = v` on the mappings object: replace
the value in place if the key exists, otherwise append (insertion order). -/
def setKey : List (String × List String) → String → List String → List (String × List String)
  | [], k, v => [(k, v)]
  | (k0, v0) :: rest, k, v =>
    if k0 = k then (k0, v) :: rest else (k0, v0) :: setKey rest k v

/-- The `stateVariations` table of `generateMappingResources` in the resource
generator: recognized names paired with id-prefix codes, in source order. -/
def stateVariations : List (List String × List String) :=
  [(["california", "ca", "calif"], ["ca", "cal"]),
   (["new-york", "newyork", "ny"], ["ny"]),
   (["texas", "tx", "tex"], ["tx", "tex"]),
   (["florida", "fl", "fla"], ["fl", "fla"]),
   (["south-carolina", "southcarolina", "sc"], ["sc"]),
   (["north-carolina", "northcarolina", "nc"], ["nc"]),
   (["new-jersey", "newjersey", "nj"], ["nj"]),
   (["new-mexico", "newmexico", "nm"], ["nm"]),
   (["west-virginia", "westvirginia", "wv"], ["wv"]),
   (["new-hampshire", "newhampshire", "nh"], ["nh"]),
   (["rhode-island", "rhodeisland", "ri"], ["ri"]),
   (["south-dakota", "southdakota", "sd"], ["sd"]),
   (["north-dakota", "northdakota", "nd"], ["nd"]),
   (["illinois", "il", "ill"], ["il", "ill"]),
   (["ohio", "oh"], ["oh"]),
   (["pennsylvania", "pa"], ["pa"]),
   (["michigan", "mi"], ["mi"]),
   (["georgia", "ga"], ["ga"]),
   (["virginia", "va"], ["va"]),
   (["washington", "wa"], ["wa"]),
   (["arizona", "az"], ["az"]),
   (["massachusetts", "ma"], ["ma"]),
   (["tennessee", "tn", "tenn"], ["tn", "tenn"]),
   (["indiana", "in"], ["in"]),
   (["missouri", "mo"], ["mo"]),
   (["maryland", "md"], ["md"]),
   (["wisconsin", "wi"], ["wi"]),
   (["colorado", "co"], ["co"]),
   (["minnesota", "mn"], ["mn"]),
   (["alabama", "al"], ["al"]),
   (["louisiana", "la"], ["la"]),
   (["kentucky", "ky"], ["ky"]),
   (["oregon", "or"], ["or"]),
   (["oklahoma", "ok"], ["ok"]),
   (["connecticut", "ct", "conn"], ["ct", "conn"]),
   (["utah", "ut"], ["ut"]),
   (["iowa", "ia"], ["ia"]),
   (["nevada", "nv"], ["nv"]),
   (["arkansas", "ar"], ["ar"]),
   (["mississippi", "ms"], ["ms"]),
   (["kansas", "ks"], ["ks"]),
   (["nebraska", "ne"], ["ne"]),
   (["idaho", "id"], ["id"]),
   (["hawaii", "hi"], ["hi"]),
   (["maine", "me"], ["me"]),
   (["montana", "mt"], ["mt"]),
   (["delaware", "de"], ["de"]),
   (["alaska", "ak"], ["ak"]),
   (["vermont", "vt"], ["vt"]),
   (["wyoming", "wy"], ["wy"])]

/-- The `stateCourts` computed for one variation entry inside
`generateMappingResources`: ids of ALL records whose lower-cased id starts
with one of the codes. -/
def stateCourtsFor (cache : CourtCache) (codes : List String) : List String :=
  (cache.all.filter (fun court =>
    codes.any (fun code => strStartsWith (lowerStr court.id) code))).map (fun c => c.id)

/-- The `mappings` object built by `generateMappingResources` in the resource
generator and persisted as `jurisdictions/court-mappings.json`: the category
entries (with `all` mapped to the empty list, commented in the source as
"Empty = no filter = all courts"), then one entry per state-name variation. -/
def generateCourtMappings (cache : CourtCache) : List (String × List String) :=
  let base : List (String × List String) :=
    [("all", []),
     ("federal", cache.federal.map (fun c => c.id)),
     ("state", cache.state.map (fun c => c.id)),
     ("bankruptcy", cache.federalBankruptcy.map (fun c => c.id)),
     ("federal-bankruptcy", cache.federalBankruptcy.map (fun c => c.id)),
     ("military", cache.military.map (fun c => c.id)),
     ("special", cache.special.map (fun c => c.id))]
  stateVariations.foldl (fun m entry =>
    let stateCourts := stateCourtsFor cache entry.2
    entry.1.foldl (fun m2 name => setKey m2 name stateCourts) m) base

/-- `CourtResourceManager.resolveJurisdiction`: look the lower-cased token up
in the persisted mappings, defaulting to `[]` when the key is absent
(`mappings.mappings[lowerJurisdiction] || []`). -/
def resourceResolveJurisdiction (mappings : List (String × List String))
    (jurisdiction : String) : List String :=
  match lookupAssoc mappings (lowerStr jurisdiction) with
  | some ids => ids
  | none => []

/-- The private `resolveJurisdiction` wrapper of the resource-based server
variant: it calls `CourtResourceManager.resolveJurisdiction` and throws
`Unrecognized jurisdiction` whenever the returned list is empty. -/
def resolveJurisdictionViaResources (mappings : List (String × List String))
    (jurisdiction : String) : Except String (List String) :=
  let courtIds := resourceResolveJurisdiction mappings jurisdiction
  if courtIds.isEmpty then
    Except.error ("Unrecognized jurisdiction: " ++ jurisdiction)
  else Except.ok courtIds

/-- Shared state seen by two concurrent `ensureCourtCache` calls, plus each
caller's progress.  A caller at program counter 0 has not yet evaluated the
expiry check; at 1 it has passed the check and is suspended on
`await this.discoverCourts()`; at 2 it has returned.  `fetches` counts how
many acquisitions have been started. -/
structure FlightState where
  courtCache : Option CourtCache
  cacheExpiry : Option Nat
  fetches : Nat
  pcA : Nat
  pcB : Nat
deriving DecidableEq, Repr

/-- The `!this.courtCache || !this.cacheExpiry || now > this.cacheExpiry`
condition of `ensureCourtCache`. -/
def needsRefresh (st : FlightState) (now : Nat) : Bool :=
  st.courtCache.isNone || st.cacheExpiry.isNone || decide (st.cacheExpiry.getD 0 < now)

/-- Set one caller's program counter. -/
def setTaskPC (st : FlightState) (taskA : Bool) (pc : Nat) : FlightState :=
  if taskA then { st with pcA := pc } else { st with pcB := pc }

/-- One atomic step of one caller running `ensureCourtCache`.  The split into
two steps is exactly the source's suspension point: the expiry check and the
call to `discoverCourts` happen synchronously (step 0), then the caller
suspends on `await`, and the categorization plus the two assignments to
`this.courtCache` / `this.cacheExpiry` happen synchronously on resumption
(step 1).  Nothing in the source guards the window between the two. -/
def flightStep (now : Nat) (fetched : List RawCourt) (st : FlightState)
    (taskA : Bool) : FlightState :=
  match (if taskA then st.pcA else st.pcB) with
  | 0 =>
    if needsRefresh st now then
      { setTaskPC st taskA 1 with fetches := st.fetches + 1 }
    else setTaskPC st taskA 2
  | 1 =>
    { setTaskPC st taskA 2 with
        courtCache := some (categorizeCourtsByJurisdiction fetched)
        cacheExpiry := some (now + CACHE_DURATION) }
  | _ => st

/-- Run two concurrent callers under a schedule (`true` = caller A moves). -/
def flightRun (now : Nat) (fetched : List RawCourt) (st : FlightState)
    (schedule : List Bool) : FlightState :=
  schedule.foldl (flightStep now fetched) st

/-- The sample court data shipped with the resource generator
(`createSampleCourtsData`), with `start_date`/`end_date` null. -/
def sampleRawCourts : List RawCourt :=
  [{ id := some "scotus", short_name := some "U.S.",
     full_name := some "Supreme Court of the United States",
     jurisdiction := some "F", start_date := none, end_date := none },
   { id := some "ca9", short_name := some "9th Cir.",
     full_name := some "United States Court of Appeals for the Ninth Circuit",
     jurisdiction := some "F", start_date := none, end_date := none },
   { id := some "ca2", short_name := some "2nd Cir.",
     full_name := some "United States Court of Appeals for the Second Circuit",
     jurisdiction := some "F", start_date := none, end_date := none },
   { id := some "cacd", short_name := some "C.D. Cal.",
     full_name := some "United States District Court for the Central District of California",
     jurisdiction := some "F", start_date := none, end_date := none },
   { id := some "nysd", short_name := some "S.D.N.Y.",
     full_name := some "United States District Court for the Southern District of New York",
     jurisdiction := some "F", start_date := none, end_date := none },
   { id := some "cal", short_name := some "Cal.",
     full_name := some "Supreme Court of California",
     jurisdiction := some "ST", start_date := none, end_date := none },
   { id := some "ny", short_name := some "N.Y.",
     full_name := some "New York Court of Appeals",
     jurisdiction := some "ST", start_date := none, end_date := none },
   { id := some "tex", short_name := some "Tex.",
     full_name := some "Supreme Court of Texas",
     jurisdiction := some "ST", start_date := none, end_date := none },
   { id := some "fla", short_name := some "Fla.",
     full_name := some "Supreme Court of Florida",
     jurisdiction := some "ST", start_date := none, end_date := none },
   { id := some "sc", short_name := some "S.C.",
     full_name := some "Supreme Court of South Carolina",
     jurisdiction := some "ST", start_date := none, end_date := none },
   { id := some "cacb", short_name := some "Bankr. C.D. Cal.",
     full_name := some "United States Bankruptcy Court for the Central District of California",
     jurisdiction := some "FB", start_date := none, end_date := none },
   { id := some "nysb", short_name := some "Bankr. S.D.N.Y.",
     full_name := some "United States Bankruptcy Court for the Southern District of New York",
     jurisdiction := some "FB", start_date := none, end_date := none },
   { id := some "asbca", short_name := some "A.S.B.C.A.",
     full_name := some "Armed Services Board of Contract Appeals",
     jurisdiction := some "MA", start_date := none, end_date := none },
   { id := some "tax", short_name := some "T.C.",
     full_name := some "United States Tax Court",
     jurisdiction := some "FS", start_date := none, end_date := none }]

/-- The directory categorized from the sample data. -/
def sampleCache : CourtCache :=
  categorizeCourtsByJurisdiction sampleRawCourts

/-- A directory holding a single FEDERAL court whose id starts with the
California prefix code "ca" (its STATE subsequence is empty). -/
def fedOnlyCache : CourtCache :=
  categorizeCourtsByJurisdiction
    [{ id := some "ca9", short_name := some "9th Cir.",
       full_name := some "United States Court of Appeals for the Ninth Circuit",
       jurisdiction := some "F", start_date := none, end_date := none }]

/-- A raw record with no usable fields, used to populate synthetic pages. -/
def blankRawCourt : RawCourt :=
  { id := none, short_name := none, full_name := none, jurisdiction := none,
    start_date := none, end_date := none }

/-- A page stream that never signals a last page: every page carries 200
records and a truthy `next` link. -/
def endlessPages : Nat → List RawCourt × Bool :=
  fun _ => (List.replicate 200 blankRawCourt, true)

/-- Initial shared state for the concurrency scenario: a previously built
non-empty directory whose expiry (50) is in the past relative to `now = 100`,
with both callers about to run `ensureCourtCache`. -/
def flightInit : FlightState :=
  { courtCache := some sampleCache, cacheExpiry := some 50, fetches := 0,
    pcA := 0, pcB := 0 }

/-- Sum of the five category subsequence lengths of a directory. -/
def sumCats (d : CourtCache) : Nat :=
  d.federal.length + d.state.length + d.federalBankruptcy.length +
    d.military.length + d.special.length

/-- A usable record carrying a jurisdiction code outside the known set. -/
def weirdRawCourt : RawCourt :=
  { id := some "weird1", short_name := none, full_name := none,
    jurisdiction := some "XX", start_date := none, end_date := none }

theorem comma_mem_normToken (s : String) (h : ',' ∈ s.data) :
    ',' ∈ (normToken s).data := by
  show ',' ∈ (s.data.map Char.toLower).filter (fun c => !isStripped c)
  refine List.mem_filter.mpr ⟨?_, by decide⟩
  exact List.mem_map.mpr ⟨',', h, rfl⟩

theorem normToken_ne_of_comma (s t : String) (h : ',' ∈ s.data)
    (ht : ',' ∉ t.data) : normToken s ≠ t :=
  fun he => ht (he ▸ comma_mem_normToken s h)

/-- A token containing a comma always lands in (and only in) the
comma-splitting branch of `resolveJurisdiction`. -/
theorem resolve_comma (cache : CourtCache) (token : String) (h : ',' ∈ token.data) :
    resolveJurisdiction cache token =
      Except.ok (((splitComma token).map trimStr).filter
        (fun i => cache.all.any (fun c => c.id == i))) := by
  have h1 : normToken token ≠ "all" := normToken_ne_of_comma _ _ h (by decide)
  have h2 : normToken token ≠ "federal" := normToken_ne_of_comma _ _ h (by decide)
  have h3 : normToken token ≠ "state" := normToken_ne_of_comma _ _ h (by decide)
  have h4 : ¬(normToken token = "federalbankruptcy" ∨ normToken token = "bankruptcy") := by
    rintro (he | he)
    · exact normToken_ne_of_comma _ _ h (by decide) he
    · exact normToken_ne_of_comma _ _ h (by decide) he
  have h5 : normToken token ≠ "military" := normToken_ne_of_comma _ _ h (by decide)
  have h6 : normToken token ≠ "special" := normToken_ne_of_comma _ _ h (by decide)
  unfold resolveJurisdiction
  simp only [if_neg h1, if_neg h2, if_neg h3, if_neg h4, if_neg h5, if_neg h6, if_pos h]

/-- One categorizer step preserves the partition count invariant. -/
theorem catStep_sum (acc : CourtCache) (c : RawCourt)
    (h : sumCats acc = acc.all.length) :
    sumCats (catStep acc c) = (catStep acc c).all.length := by
  unfold catStep
  split
  · dsimp only
    split <;> simp only [sumCats, List.length_append, List.length_cons,
      List.length_nil] at h ⊢ <;> omega
  · exact h

/-- The partition count invariant holds along the whole fold. -/
theorem foldl_catStep_sum (l : List RawCourt) :
    ∀ acc : CourtCache, sumCats acc = acc.all.length →
      sumCats (l.foldl catStep acc) = (l.foldl catStep acc).all.length := by
  induction l with
  | nil => intro acc h; simpa using h
  | cons hd tl ih =>
    intro acc h
    simp only [List.foldl_cons]
    exact ih (catStep acc hd) (catStep_sum acc hd h)

/-- A categorizer step never removes anything from the SPECIAL subsequence. -/
theorem catStep_special_mono (acc : CourtCache) (c : RawCourt) (x : CourtInfo)
    (h : x ∈ acc.special) : x ∈ (catStep acc c).special := by
  unfold catStep
  split
  · dsimp only
    split <;> first
      | exact h
      | exact List.mem_append_left _ h
  · exact h

/-- Folding more records never removes anything from SPECIAL. -/
theorem foldl_catStep_special_mono (l : List RawCourt) :
    ∀ (acc : CourtCache) (x : CourtInfo), x ∈ acc.special →
      x ∈ (l.foldl catStep acc).special := by
  induction l with
  | nil => intro acc x h; simpa using h
  | cons hd tl ih =>
    intro acc x h
    simp only [List.foldl_cons]
    exact ih _ _ (catStep_special_mono acc hd x h)

/-- A usable record with an unrecognized jurisdiction code is appended to
SPECIAL by its own step. -/
theorem catStep_special_hit (acc : CourtCache) (c : RawCourt)
    (h1 : truthy c.id = true) (h2 : truthy c.jurisdiction = true)
    (hF : c.jurisdiction.getD "" ≠ "F") (hST : c.jurisdiction.getD "" ≠ "ST")
    (hFB : c.jurisdiction.getD "" ≠ "FB") (hMA : c.jurisdiction.getD "" ≠ "MA")
    (hFS : c.jurisdiction.getD "" ≠ "FS") :
    buildCourtInfo c ∈ (catStep acc c).special := by
  unfold catStep
  rw [if_pos (by simp [h1, h2])]
  dsimp only
  split <;> simp_all [List.mem_append]

/-- A usable record with an unrecognized code ends up in SPECIAL after the
whole fold, wherever it sits in the input. -/
theorem foldl_catStep_special_mem (l : List RawCourt) :
    ∀ (acc : CourtCache) (c : RawCourt), c ∈ l →
      truthy c.id = true → truthy c.jurisdiction = true →
      c.jurisdiction.getD "" ≠ "F" → c.jurisdiction.getD "" ≠ "ST" →
      c.jurisdiction.getD "" ≠ "FB" → c.jurisdiction.getD "" ≠ "MA" →
      c.jurisdiction.getD "" ≠ "FS" →
      buildCourtInfo c ∈ (l.foldl catStep acc).special := by
  induction l with
  | nil => intro acc c hmem; cases hmem
  | cons hd tl ih =>
    intro acc c hmem h1 h2 hF hST hFB hMA hFS
    simp only [List.foldl_cons]
    rcases List.mem_cons.mp hmem with heq | htl
    · subst heq
      exact foldl_catStep_special_mono tl _ _
        (catStep_special_hit acc c h1 h2 hF hST hFB hMA hFS)
    · exact ih _ c htl h1 h2 hF hST hFB hMA hFS

/-- Core bound for the accumulation loop: starting from an accumulator whose
length is a multiple of 200 and at most 4000, with enough fuel for the
remaining iterations, the loop reaches its exit condition and the final
record sequence is at most 4000 long. -/
theorem discoverGo_succ (pages : Nat → List RawCourt × Bool)
    (fuel page : Nat) (acc : List RawCourt) (hasMore : Bool) :
    discoverGo pages (fuel + 1) page acc hasMore =
      if hasMore = true ∧ acc.length < 4000 then
        discoverGo pages fuel (page + 1) (acc ++ (pages page).1) (pages page).2
      else some acc := rfl

theorem discoverGo_total (pages : Nat → List RawCourt × Bool)
    (hpage : ∀ n, (pages n).1.length ≤ 200 ∧
      ((pages n).2 = true → (pages n).1.length = 200)) :
    ∀ (fuel k page : Nat) (acc : List RawCourt) (hasMore : Bool),
      acc.length = 200 * k → k ≤ 20 → 20 - k < fuel →
      ∃ res, discoverGo pages fuel page acc hasMore = some res ∧
        res.length ≤ 4000 := by
  intro fuel
  induction fuel with
  | zero => intro k page acc hasMore _ _ hfuel; omega
  | succ fuel ih =>
    intro k page acc hasMore hlen hk hfuel
    by_cases hcond : hasMore = true ∧ acc.length < 4000
    · rw [discoverGo_succ, if_pos hcond]
      have hk19 : k ≤ 19 := by omega
      by_cases hnext : (pages page).2 = true
      · have h200 : (pages page).1.length = 200 := (hpage page).2 hnext
        exact ih (k + 1) (page + 1) (acc ++ (pages page).1) ((pages page).2)
          (by simp only [List.length_append, hlen, h200]; omega)
          (by omega) (by omega)
      · cases fuel with
        | zero => omega
        | succ fuel2 =>
          refine ⟨acc ++ (pages page).1, ?_, ?_⟩
          · rw [discoverGo_succ, if_neg (by simp [hnext])]
          · have hle := (hpage page).1
            simp only [List.length_append]
            omega
    · refine ⟨acc, ?_, by omega⟩
      rw [discoverGo_succ, if_neg hcond]

/-- Assigning under a different key leaves a lookup unchanged. -/
theorem lookupAssoc_setKey_ne (m : List (String × List String)) (k k' : String)
    (v : List String) (h : k' ≠ k) :
    lookupAssoc (setKey m k' v) k = lookupAssoc m k := by
  induction m with
  | nil => simp [setKey, lookupAssoc, h]
  | cons hd tl ih =>
    rcases hd with ⟨k0, v0⟩
    by_cases h0 : k0 = k'
    · subst h0
      simp [setKey, lookupAssoc, h]
    · simp [setKey, lookupAssoc, h0, ih]

/-- Assigning a block of keys none of which is `k` leaves `k`'s lookup
unchanged. -/
theorem lookupAssoc_foldl_setKey_ne (names : List String) (sc : List String)
    (k : String) (h : ∀ n ∈ names, n ≠ k) :
    ∀ m, lookupAssoc (names.foldl (fun m2 name => setKey m2 name sc) m) k =
      lookupAssoc m k := by
  induction names with
  | nil => intro m; rfl
  | cons n tl ih =>
    intro m
    simp only [List.foldl_cons]
    rw [ih (fun x hx => h x (List.mem_cons_of_mem n hx)),
      lookupAssoc_setKey_ne m k n sc (h n (List.mem_cons_self n tl))]

/-- The state-variation assignments never touch a key outside their name
lists. -/
theorem lookupAssoc_foldl_vars (cache : CourtCache)
    (vars : List (List String × List String)) (k : String)
    (h : ∀ e ∈ vars, ∀ n ∈ e.1, n ≠ k) :
    ∀ m, lookupAssoc (vars.foldl (fun m entry =>
        let stateCourts := stateCourtsFor cache entry.2
        entry.1.foldl (fun m2 name => setKey m2 name stateCourts) m) m) k =
      lookupAssoc m k := by
  induction vars with
  | nil => intro m; rfl
  | cons e tl ih =>
    intro m
    simp only [List.foldl_cons]
    rw [ih (fun x hx => h x (List.mem_cons_of_mem e hx))]
    exact lookupAssoc_foldl_setKey_ne e.1 (stateCourtsFor cache e.2) k
      (h e (List.mem_cons_self e tl)) m

/-- In the generated mappings, "all" is always mapped to the empty list. -/
theorem lookupAssoc_generateCourtMappings_all (cache : CourtCache) :
    lookupAssoc (generateCourtMappings cache) "all" = some [] := by
  unfold generateCourtMappings
  rw [lookupAssoc_foldl_vars cache stateVariations "all" (by decide)]
  rfl

/-- `CourtResourceManager.resolveJurisdiction` on "all" returns the empty
list for every generated mapping set. -/
theorem resourceResolveJurisdiction_generated_all (cache : CourtCache) :
    resourceResolveJurisdiction (generateCourtMappings cache) "all" = [] := by
  unfold resourceResolveJurisdiction
  rw [show lowerStr "all" = "all" from rfl, lookupAssoc_generateCourtMappings_all]

/-- C1: In the main resolver, the token "all" resolves successfully to the
empty list ("no filter / search all courts"), distinguishable from the
unrecognized-jurisdiction error.  But in the resource-backed resolver variant
— whose generated mappings themselves map "all" to the empty list with the
comment "Empty = no filter = all courts" — the wrapper treats every empty
result as failure, so resolving "all" throws `Unrecognized jurisdiction: all`
for every directory, contradicting the documented meaning of "all". -/
theorem resolve_all_empty_but_resource_wrapper_rejects (cache : CourtCache) :
    resolveJurisdiction cache "all" = Except.ok [] ∧
    resolveJurisdictionViaResources (generateCourtMappings cache) "all" =
      Except.error "Unrecognized jurisdiction: all" := by
  refine ⟨rfl, ?_⟩
  unfold resolveJurisdictionViaResources
  rw [resourceResolveJurisdiction_generated_all]
  rfl

/-- C2 counterexample: the exact-court-id strategy compares the raw token
against court ids case-sensitively (`c.id === jurisdiction`), so "SCOTUS"
fails to resolve in a directory that contains the court id "scotus" — the
claim's "under any casing" is false. -/
theorem upper_case_court_id_fails_to_resolve :
    resolveJurisdiction sampleCache "SCOTUS" =
      Except.error "Unrecognized jurisdiction: SCOTUS" ∧
    sampleCache.all.any (fun c => c.id == "scotus") = true :=
  ⟨rfl, rfl⟩

/-- C2 amended: a token that exactly equals (same casing) the id of a court
in the directory — and is not one of the sentinel keywords and contains no
comma — resolves to exactly the single-element list containing it. -/
theorem exact_case_sensitive_id_resolves (cache : CourtCache) (id : String)
    (h1 : normToken id ≠ "all") (h2 : normToken id ≠ "federal")
    (h3 : normToken id ≠ "state")
    (h4 : ¬(normToken id = "federalbankruptcy" ∨ normToken id = "bankruptcy"))
    (h5 : normToken id ≠ "military") (h6 : normToken id ≠ "special")
    (h7 : ',' ∉ id.data)
    (h8 : cache.all.any (fun c => c.id == id) = true) :
    resolveJurisdiction cache id = Except.ok [id] := by
  unfold resolveJurisdiction
  simp only [if_neg h1, if_neg h2, if_neg h3, if_neg h4, if_neg h5, if_neg h6,
    if_neg h7, if_pos h8]

/-- C2 witness: "scotus" (exact casing) resolves to ["scotus"]. -/
theorem exact_case_sensitive_id_resolves_witness :
    resolveJurisdiction sampleCache "scotus" = Except.ok ["scotus"] :=
  exact_case_sensitive_id_resolves sampleCache "scotus" (by decide) (by decide)
    (by decide) (by decide) (by decide) (by decide) (by decide) rfl

/-- C3: any token containing a comma is split on commas, each part trimmed,
and exactly the parts equal to a known court id are kept, in order; parts
matching no id are dropped without any error. -/
theorem comma_token_resolves_to_filtered_ids (cache : CourtCache) (token : String)
    (h : ',' ∈ token.data) :
    resolveJurisdiction cache token =
      Except.ok (((splitComma token).map trimStr).filter
        (fun i => cache.all.any (fun c => c.id == i))) :=
  resolve_comma cache token h

/-- C3 witness: in a directory containing "ca9" and "scotus" but no "bogus",
"ca9,bogus,scotus" resolves to ["ca9", "scotus"]. -/
theorem comma_token_resolves_to_filtered_ids_witness :
    resolveJurisdiction sampleCache "ca9,bogus,scotus" =
      Except.ok ["ca9", "scotus"] :=
  (comma_token_resolves_to_filtered_ids sampleCache "ca9,bogus,scotus"
    (by decide)).trans rfl

/-- C4: the categorizer appends every usable record (truthy id and
jurisdiction) to the full sequence and to exactly one category subsequence,
so the five category counts always sum to the total; records with an
unrecognized jurisdiction code are bucketed into SPECIAL, never dropped; and
the categorizer is a pure function, so two runs on the same input coincide. -/
theorem categorizer_partitions_and_buckets_unknown (courts : List RawCourt) :
    ((categorizeCourtsByJurisdiction courts).federal.length +
      (categorizeCourtsByJurisdiction courts).state.length +
      (categorizeCourtsByJurisdiction courts).federalBankruptcy.length +
      (categorizeCourtsByJurisdiction courts).military.length +
      (categorizeCourtsByJurisdiction courts).special.length =
      (categorizeCourtsByJurisdiction courts).all.length) ∧
    (∀ c ∈ courts, truthy c.id = true → truthy c.jurisdiction = true →
      c.jurisdiction.getD "" ≠ "F" → c.jurisdiction.getD "" ≠ "ST" →
      c.jurisdiction.getD "" ≠ "FB" → c.jurisdiction.getD "" ≠ "MA" →
      c.jurisdiction.getD "" ≠ "FS" →
      buildCourtInfo c ∈ (categorizeCourtsByJurisdiction courts).special) ∧
    categorizeCourtsByJurisdiction courts = categorizeCourtsByJurisdiction courts := by
  refine ⟨?_, ?_, rfl⟩
  · have h := foldl_catStep_sum courts emptyCourtCache rfl
    simpa [sumCats, categorizeCourtsByJurisdiction] using h
  · intro c hmem h1 h2 hF hST hFB hMA hFS
    exact foldl_catStep_special_mem courts emptyCourtCache c hmem h1 h2 hF hST hFB hMA hFS

/-- C4 witness: the partition equality and the SPECIAL bucketing of an
unknown code "XX", on the sample records extended with such a record. -/
theorem categorizer_partitions_and_buckets_unknown_witness :
    ((categorizeCourtsByJurisdiction (sampleRawCourts ++ [weirdRawCourt])).federal.length +
      (categorizeCourtsByJurisdiction (sampleRawCourts ++ [weirdRawCourt])).state.length +
      (categorizeCourtsByJurisdiction (sampleRawCourts ++ [weirdRawCourt])).federalBankruptcy.length +
      (categorizeCourtsByJurisdiction (sampleRawCourts ++ [weirdRawCourt])).military.length +
      (categorizeCourtsByJurisdiction (sampleRawCourts ++ [weirdRawCourt])).special.length =
      (categorizeCourtsByJurisdiction (sampleRawCourts ++ [weirdRawCourt])).all.length) ∧
    buildCourtInfo weirdRawCourt ∈
      (categorizeCourtsByJurisdiction (sampleRawCourts ++ [weirdRawCourt])).special :=
  ⟨(categorizer_partitions_and_buckets_unknown (sampleRawCourts ++ [weirdRawCourt])).1,
   (categorizer_partitions_and_buckets_unknown (sampleRawCourts ++ [weirdRawCourt])).2.1
     weirdRawCourt (by decide) (by decide) (by decide) (by decide) (by decide)
     (by decide) (by decide) (by decide)⟩

/-- C5 counterexample: with a directory holding a single FEDERAL court
"ca9" (STATE subsequence empty), the state lookup for "california" returns
[], even though the full record sequence contains a record whose
lower-cased id starts with the California code "ca" — the generator-side
variant over all records returns it.  The lookup is therefore NOT drawn from
all records, refuting the claim. -/
theorem state_lookup_ignores_federal_records :
    findCourtsByState fedOnlyCache "california" = [] ∧
    (findCourtsByStateAllRecords fedOnlyCache "california").map (fun c => c.id) = ["ca9"] ∧
    fedOnlyCache.all.map (fun c => c.id) = ["ca9"] :=
  ⟨rfl, rfl, rfl⟩

/-- C5 amended: for a state key known to the abbreviation table, the state
lookup returns exactly the ids, in directory insertion order, of the records
of the STATE category subsequence (not of all records) whose lower-cased id
starts with one of the state's codes. -/
theorem state_lookup_filters_state_category (cache : CourtCache)
    (stateName : String) (codes : List String)
    (h : lookupAssoc stateAbbreviations stateName = some codes) :
    findCourtsByState cache stateName =
      (cache.state.filter (fun court =>
        codes.any (fun code => strStartsWith (lowerStr court.id) code))).map
        (fun c => c.id) := by
  unfold findCourtsByState stateCodesFor
  rw [h]

/-- C5 witness: the California lookup on the sample directory returns the
single STATE record "cal" (and not the federal "ca9"/"cacd" records). -/
theorem state_lookup_filters_state_category_witness :
    findCourtsByState sampleCache "california" = ["cal"] :=
  (state_lookup_filters_state_category sampleCache "california" ["ca", "cal"]
    rfl).trans rfl

/-- C6 counterexample: after a failed acquisition (`discoverCourts` returns
`[]` from its catch-all), an expired cache holding a previously built,
non-empty snapshot is OVERWRITTEN with the empty categorized directory and a
fresh expiry — the stale snapshot is not retained; and with no previous
snapshot the same empty directory is cached instead of any failure being
propagated. -/
theorem failed_refresh_overwrites_stale_snapshot :
    ensureCourtCache { courtCache := some sampleCache, cacheExpiry := some 50 } 100 [] =
      { courtCache := some (categorizeCourtsByJurisdiction [])
        cacheExpiry := some (100 + CACHE_DURATION) } ∧
    (categorizeCourtsByJurisdiction []).all = [] ∧
    sampleCache.all ≠ [] ∧
    ensureCourtCache { courtCache := none, cacheExpiry := none } 100 [] =
      { courtCache := some (categorizeCourtsByJurisdiction [])
        cacheExpiry := some (100 + CACHE_DURATION) } := by
  refine ⟨rfl, rfl, ?_, rfl⟩
  decide

/-- C6 amended: whenever the cache is absent or expired and acquisition
fails (empty record list), `ensureCourtCache` unconditionally caches the
empty categorized directory with a fresh expiry, replacing any previous
snapshot; no failure is propagated. -/
theorem failed_refresh_caches_empty_directory (st : CacheState) (now : Nat)
    (h : (st.courtCache.isNone || st.cacheExpiry.isNone ||
      decide (st.cacheExpiry.getD 0 < now)) = true) :
    ensureCourtCache st now [] =
      { courtCache := some (categorizeCourtsByJurisdiction [])
        cacheExpiry := some (now + CACHE_DURATION) } := by
  unfold ensureCourtCache
  rw [if_pos h]

/-- C6 witness: the amended behavior at the concrete expired state. -/
theorem failed_refresh_caches_empty_directory_witness :
    ensureCourtCache { courtCache := some sampleCache, cacheExpiry := some 50 } 100 [] =
      { courtCache := some (categorizeCourtsByJurisdiction [])
        cacheExpiry := some (100 + CACHE_DURATION) } :=
  failed_refresh_caches_empty_directory
    { courtCache := some sampleCache, cacheExpiry := some 50 } 100 rfl

/-- C7: as long as every page the endpoint serves carries at most the
requested 200 records, exactly 200 of them whenever a further page is
indicated, the accumulation loop exits within 21 iterations — any fuel
beyond 20 yields the same completed run, even for a stream that never
signals a last page — and the returned record sequence is bounded by the
4000-record safety ceiling. -/
theorem pagination_terminates_within_ceiling (pages : Nat → List RawCourt × Bool)
    (fuel : Nat)
    (hpage : ∀ n, (pages n).1.length ≤ 200 ∧
      ((pages n).2 = true → (pages n).1.length = 200))
    (hfuel : 20 < fuel) :
    ∃ res, discoverCourts pages fuel = some res ∧ res.length ≤ 4000 :=
  discoverGo_total pages hpage fuel 0 1 [] true rfl (by omega) (by omega)

/-- C7 witness: the loop completes on a stream of full pages that never
signals a last page, and the result respects the ceiling. -/
theorem pagination_terminates_within_ceiling_witness :
    ∃ res, discoverCourts endlessPages 21 = some res ∧ res.length ≤ 4000 :=
  pagination_terminates_within_ceiling endlessPages 21
    (fun _ => ⟨le_of_eq (List.length_replicate 200 blankRawCourt),
      fun _ => List.length_replicate 200 blankRawCourt⟩)
    (by omega)

/-- C8 counterexample: under the schedule in which both callers evaluate the
expiry check before either stores (the exact window opened by
`await this.discoverCourts()`), each caller starts its own acquisition: two
fetches, not the claimed exactly one. -/
theorem interleaved_refresh_fetches_twice :
    (flightRun 100 [] flightInit [true, false, true, false]).fetches = 2 ∧
    (flightRun 100 [] flightInit [true, false, true, false]).fetches ≠ 1 :=
  ⟨rfl, by decide⟩

/-- C8 amended: `ensureCourtCache` performs no single-flight coalescing:
two callers that interleave past the expired-cache check each trigger an
independent acquisition (two fetches), while serialized callers share the
refreshed cache (one fetch). -/
theorem refresh_is_not_single_flight :
    (flightRun 100 [] flightInit [true, false, true, false]).fetches = 2 ∧
    (flightRun 100 [] flightInit [true, true, false, false]).fetches = 1 :=
  ⟨rfl, rfl⟩

/-- C9 counterexample: on the sample directory — which contains California
courts ("cal", "cacd", "cacb", "ca9", ...) — the suggestion engine returns
the EMPTY list for the misspelled token "calfornia": no court name contains
the literal substring "calfornia", and the California keyword heuristic is
guarded by `!normalized.includes("cal")`, which the misspelling fails. -/
theorem misspelled_calfornia_yields_no_suggestions :
    suggestSimilarJurisdictions sampleCache "calfornia" = [] ∧
    "cal" ∈ sampleCache.all.map (fun c => c.id) ∧
    "cacd" ∈ sampleCache.all.map (fun c => c.id) :=
  ⟨rfl, by decide, by decide⟩

/-- C9 amended: for every directory in which no record among the first 100
has a short or full name containing the literal substring "calfornia", the
suggestion engine returns the empty list for "calfornia": every keyword
heuristic fails on it (in particular "california" is suggested only for
tokens containing "ca" but not "cal", and "calfornia" contains "cal"). -/
theorem calfornia_suggestions_empty_without_literal_match (cache : CourtCache)
    (h : (cache.all.take 100).filter (fun court =>
      strIncludes (lowerStr court.short_name) (lowerStr "calfornia") ||
      strIncludes (lowerStr court.full_name) (lowerStr "calfornia")) = []) :
    suggestSimilarJurisdictions cache "calfornia" = [] := by
  unfold suggestSimilarJurisdictions
  simp only [h]
  rfl

/-- C9 witness: the amended statement at the sample directory. -/
theorem calfornia_suggestions_empty_witness :
    suggestSimilarJurisdictions sampleCache "calfornia" = [] :=
  calfornia_suggestions_empty_without_literal_match sampleCache rfl

/-- C10: a comma-containing token none of whose parts matches a known court
id resolves to `ok []` with no error raised, making it indistinguishable at
the resolver's interface from the intentional empty result of "all". -/
theorem invalid_comma_list_indistinguishable_from_all (cache : CourtCache)
    (token : String) (h : ',' ∈ token.data)
    (hnone : ((splitComma token).map trimStr).filter
      (fun i => cache.all.any (fun c => c.id == i)) = []) :
    resolveJurisdiction cache token = Except.ok [] ∧
    resolveJurisdiction cache token = resolveJurisdiction cache "all" := by
  have hc := resolve_comma cache token h
  rw [hnone] at hc
  exact ⟨hc, hc.trans rfl⟩

/-- C10 witness: "bogus1,bogus2" on the sample directory. -/
theorem invalid_comma_list_indistinguishable_from_all_witness :
    resolveJurisdiction sampleCache "bogus1,bogus2" = Except.ok [] ∧
    resolveJurisdiction sampleCache "bogus1,bogus2" =
      resolveJurisdiction sampleCache "all" :=
  invalid_comma_list_indistinguishable_from_all sampleCache "bogus1,bogus2"
    (by decide) rfl
